/-
Verification of `hassio/addons/utils.py`: the security rating engine,
repository identity hashing, the install-state guard decorator and the
best-effort data purge, shallowly embedded in Lean 4.

Python strings that flow through the hashing pipeline are modelled as
lists of Unicode code points (`PyStr`); byte strings as lists of `Nat`
below 256; 32-bit machine arithmetic is `Nat` reduced modulo `2 ^ 32`.
-/
import Mathlib

namespace Hassio

/-! ### Constants from `..const`

Modelled from the spec: the module imports enumerated constants from
`hassio/const.py`, a file that is not part of the sources provided; the
spec gives the domains {disabled, default, custom-profile} for the
isolation profile, {default, manager, admin} for the platform API role,
and the six dangerous capability tokens.  Only their distinctness
matters to the rating engine; they are modelled as distinct strings. -/

def SECURITY_DISABLE : String := "disabled"

def SECURITY_PROFILE : String := "custom-profile"

def SECURITY_DEFAULT : String := "default"

def ROLE_MANAGER : String := "manager"

def ROLE_ADMIN : String := "admin"

def ROLE_DEFAULT : String := "default"

def PRIVILEGED_NET_ADMIN : String := "NET_ADMIN"

def PRIVILEGED_SYS_ADMIN : String := "SYS_ADMIN"

def PRIVILEGED_SYS_RAWIO : String := "SYS_RAWIO"

def PRIVILEGED_SYS_PTRACE : String := "SYS_PTRACE"

def PRIVILEGED_SYS_MODULE : String := "SYS_MODULE"

def PRIVILEGED_DAC_READ_SEARCH : String := "DAC_READ_SEARCH"

/-! ### The add-on descriptor

`Addon` is the read-only view of an add-on's declared configuration used
by `rating_security` and `check_installed` (spec §3, AddonDescriptor). -/

structure Addon where
  apparmor : String
  access_auth_api : Bool
  privileged : List String
  hassio_role : String
  host_network : Bool
  host_pid : Bool
  with_full_access : Bool
  access_docker_api : Bool
  is_installed : Bool
  slug : String
deriving DecidableEq, Repr

/-- `rating_security` from `hassio/addons/utils.py` lines 32-86.  Each
`let` rebinding mirrors one `if`-block of the Python function; the final
line is `max(min(6, rating), 1)`. -/
def rating_security (addon : Addon) : Int :=
  let rating : Int := 5
  -- AppArmor
  let rating : Int :=
    if addon.apparmor = SECURITY_DISABLE then rating + -1
    else if addon.apparmor = SECURITY_PROFILE then rating + 1
    else rating
  -- Home Assistant Login
  let rating : Int := if addon.access_auth_api then rating + 1 else rating
  -- Privileged options
  let rating : Int :=
    if [PRIVILEGED_NET_ADMIN, PRIVILEGED_SYS_ADMIN, PRIVILEGED_SYS_RAWIO,
        PRIVILEGED_SYS_PTRACE, PRIVILEGED_SYS_MODULE,
        PRIVILEGED_DAC_READ_SEARCH].any
          (fun privilege => addon.privileged.contains privilege)
    then rating + -1 else rating
  -- API Hass.io role
  let rating : Int :=
    if addon.hassio_role = ROLE_MANAGER then rating + -1
    else if addon.hassio_role = ROLE_ADMIN then rating + -2
    else rating
  -- Not secure Networking
  let rating : Int := if addon.host_network then rating + -1 else rating
  -- Insecure PID namespace
  let rating : Int := if addon.host_pid then rating + -2 else rating
  -- Full Access
  let rating : Int := if addon.with_full_access then rating + -2 else rating
  -- Docker Access
  let rating : Int := if addon.access_docker_api then 1 else rating
  max (min 6 rating) 1

/-- The six dangerous capability tokens of spec §4.1 step 4. -/
def DANGEROUS_PRIVILEGES : List String :=
  [PRIVILEGED_NET_ADMIN, PRIVILEGED_SYS_ADMIN, PRIVILEGED_SYS_RAWIO,
   PRIVILEGED_SYS_PTRACE, PRIVILEGED_SYS_MODULE, PRIVILEGED_DAC_READ_SEARCH]

/-- The additive total of spec §4.1 steps 1-8, written from the spec's
words (baseline 5 plus the seven adjustments, the capability adjustment
as a presence test on `requested_privileges`), to be compared against
`rating_security`. -/
def spec_additive_total (addon : Addon) : Int :=
  5
  + (if addon.apparmor = SECURITY_DISABLE then -1
     else if addon.apparmor = SECURITY_PROFILE then 1 else 0)
  + (if addon.access_auth_api then 1 else 0)
  + (if addon.privileged.any (fun p => DANGEROUS_PRIVILEGES.contains p)
     then -1 else 0)
  + (if addon.hassio_role = ROLE_MANAGER then -1
     else if addon.hassio_role = ROLE_ADMIN then -2 else 0)
  + (if addon.host_network then -1 else 0)
  + (if addon.host_pid then -2 else 0)
  + (if addon.with_full_access then -2 else 0)

/-- Spec §4.1 step 10: `max(min(6, total), 1)`. -/
def spec_clamp (total : Int) : Int := max (min 6 total) 1

/-- The baseline descriptor of spec §8: default isolation, no login, no
privileges, default role, no host network/namespace, no full access, no
runtime-API access. -/
def baselineAddon : Addon :=
  { apparmor := SECURITY_DEFAULT
    access_auth_api := false
    privileged := []
    hassio_role := ROLE_DEFAULT
    host_network := false
    host_pid := false
    with_full_access := false
    access_docker_api := false
    is_installed := true
    slug := "baseline" }

/-- Baseline plus host PID namespace plus full device access (spec §8). -/
def pidFullAddon : Addon :=
  { baselineAddon with host_pid := true, with_full_access := true }

/-- A descriptor whose enumerated fields lie outside their documented
domains (used for the malformed-input analysis). -/
def bogusAddon : Addon :=
  { baselineAddon with apparmor := "bogus-isolation", hassio_role := "bogus-role" }

/-- Container-runtime API access combined with every other field at its
safest setting (spec §4.1 edge case). -/
def safestButDockerAddon : Addon :=
  { baselineAddon with apparmor := SECURITY_PROFILE, access_auth_api := true,
                       access_docker_api := true }

/-- Baseline with the manager role, a concrete non-baseline instance. -/
def managerAddon : Addon :=
  { baselineAddon with hassio_role := ROLE_MANAGER }

/-! ### Python strings and the repository identity hasher -/

/-- Python strings in the hashing pipeline: lists of Unicode code points. -/
abbrev PyStr := List Nat

/-- Code points of a Lean string literal, for concrete `PyStr` values. -/
def strCP (s : String) : PyStr := s.toList.map Char.toNat

/-- Python `str.lower` on one code point (the ASCII case mapping; the
case mappings outside ASCII are omitted, which is exact for every
concrete string appearing in this development). -/
def lowerCP (c : Nat) : Nat := if 65 ≤ c ∧ c ≤ 90 then c + 32 else c

/-- Python `str.lower`, code point by code point. -/
def pyLower (s : PyStr) : PyStr := s.map lowerCP

/-- UTF-8 encoding of one code point. -/
def utf8EncodeChar (c : Nat) : List Nat :=
  if c < 128 then [c]
  else if c < 2048 then [192 + c / 64, 128 + c % 64]
  else if c < 65536 then [224 + c / 4096, 128 + c / 64 % 64, 128 + c % 64]
  else [240 + c / 262144, 128 + c / 4096 % 64, 128 + c / 64 % 64, 128 + c % 64]

/-- Python `str.encode()`: UTF-8 bytes of a string. -/
def utf8Encode (s : PyStr) : List Nat := s.flatMap utf8EncodeChar

/-! `hashlib.sha1`, on lists of byte values; 32-bit words are `Nat`
reduced modulo `2 ^ 32`. -/

def MOD32 : Nat := 4294967296

/-- Rotate a 32-bit word left by `b` bits. -/
def rotl32 (b n : Nat) : Nat :=
  (n % MOD32 * 2 ^ b) % MOD32 + n % MOD32 / 2 ^ (32 - b)

/-- Big-endian 4-byte encoding of a 32-bit word. -/
def wordBytes (w : Nat) : List Nat :=
  [w / 16777216 % 256, w / 65536 % 256, w / 256 % 256, w % 256]

/-- Big-endian 8-byte encoding of the 64-bit message bit length. -/
def lengthBytes8 (n : Nat) : List Nat :=
  [n / 2 ^ 56 % 256, n / 2 ^ 48 % 256, n / 2 ^ 40 % 256, n / 2 ^ 32 % 256,
   n / 2 ^ 24 % 256, n / 2 ^ 16 % 256, n / 2 ^ 8 % 256, n % 256]

/-- SHA-1 padding: append `0x80`, zeros up to 56 mod 64, then the
64-bit bit length. -/
def sha1Pad (msg : List Nat) : List Nat :=
  msg ++ [128] ++ List.replicate ((64 - (msg.length + 9) % 64) % 64) 0
      ++ lengthBytes8 (8 * msg.length)

/-- Split a byte list into its 64-byte chunks. -/
def chunks64 (l : List Nat) : List (List Nat) :=
  (List.range (l.length / 64)).map (fun i => (l.drop (64 * i)).take 64)

/-- Big-endian 32-bit words of a chunk. -/
def bytesToWords : List Nat → List Nat
  | a :: b :: c :: d :: rest =>
      (((a * 256 + b) * 256 + c) * 256 + d) :: bytesToWords rest
  | _ => []

/-- Extend the 16 message words by `k` more schedule words. -/
def extendSchedule (acc : List Nat) : Nat → List Nat
  | 0 => acc
  | k + 1 =>
      let n := acc.length
      let w := rotl32 1 ((acc.getD (n - 3) 0 ^^^ acc.getD (n - 8) 0) ^^^
                         (acc.getD (n - 14) 0 ^^^ acc.getD (n - 16) 0))
      extendSchedule (acc ++ [w]) k

/-- The SHA-1 round function for round `i`. -/
def sha1F (i b c d : Nat) : Nat :=
  if i < 20 then b % MOD32 &&& c ||| (MOD32 - 1 - b % MOD32) &&& d
  else if i < 40 then b ^^^ c ^^^ d
  else if i < 60 then b &&& c ||| b &&& d ||| c &&& d
  else b ^^^ c ^^^ d

/-- The SHA-1 round constant for round `i`. -/
def sha1K (i : Nat) : Nat :=
  if i < 20 then 1518500249
  else if i < 40 then 1859775393
  else if i < 60 then 2400959708
  else 3395469782

/-- One SHA-1 round on the state `(a, b, c, d, e)`; the input pairs a
round index with its schedule word. -/
def sha1Round (st : Nat × Nat × Nat × Nat × Nat) (iw : Nat × Nat) :
    Nat × Nat × Nat × Nat × Nat :=
  let a := st.1; let b := st.2.1; let c := st.2.2.1
  let d := st.2.2.2.1; let e := st.2.2.2.2
  let temp := (rotl32 5 a + sha1F iw.1 b c d + e + sha1K iw.1 + iw.2) % MOD32
  (temp, a, rotl32 30 b, c, d)

/-- Process one 64-byte chunk. -/
def sha1Chunk (h : Nat × Nat × Nat × Nat × Nat) (chunk : List Nat) :
    Nat × Nat × Nat × Nat × Nat :=
  let ws := extendSchedule (bytesToWords chunk) 64
  let st := ((List.range 80).zip ws).foldl sha1Round h
  ((h.1 + st.1) % MOD32, (h.2.1 + st.2.1) % MOD32, (h.2.2.1 + st.2.2.1) % MOD32,
   (h.2.2.2.1 + st.2.2.2.1) % MOD32, (h.2.2.2.2 + st.2.2.2.2) % MOD32)

/-- SHA-1: a 20-byte digest.  Validated against the standard test
vectors (empty string, `"abc"`, multi-chunk inputs). -/
def sha1 (msg : List Nat) : List Nat :=
  let h := (chunks64 (sha1Pad msg)).foldl sha1Chunk
    (1732584193, 4023233417, 2562383102, 271733878, 3285377520)
  wordBytes h.1 ++ wordBytes h.2.1 ++ wordBytes h.2.2.1 ++
    wordBytes h.2.2.2.1 ++ wordBytes h.2.2.2.2

/-- Code point of the lowercase hex digit of `n % 16` (`hexdigest`
writes `0`-`9`, `a`-`f`). -/
def hexDigitCP (n : Nat) : Nat :=
  if n % 16 < 10 then 48 + n % 16 else 87 + n % 16

/-- `.hexdigest()`: two lowercase hex characters per digest byte. -/
def hexdigest (bytes : List Nat) : PyStr :=
  bytes.flatMap (fun b => [hexDigitCP (b / 16), hexDigitCP b])

/-- `get_hash_from_repository` from `hassio/addons/utils.py` lines
89-92: the first 8 hex characters of the SHA-1 of the lower-cased,
UTF-8 encoded name. -/
def get_hash_from_repository (name : PyStr) : PyStr :=
  let key := utf8Encode (pyLower name)
  (hexdigest (sha1 key)).take 8

/-- One code point of the character class `[a-f0-9]`. -/
def isLowerHexCP (c : Nat) : Bool :=
  (48 ≤ c && c ≤ 57) || (97 ≤ c && c ≤ 102)

/-- `RE_SHA1.match(s)` for `RE_SHA1 = re.compile(r"[a-f0-9]{8}")`
(line 28): Python `re.match` anchors at the start of the string only,
so the test succeeds exactly when the string has at least 8 characters
and its first 8 all lie in `[a-f0-9]`. -/
def RE_SHA1_match (s : PyStr) : Bool :=
  decide (8 ≤ s.length) && (s.take 8).all isLowerHexCP

/-- An 8-character lowercase-hex string. -/
def isHex8 (s : PyStr) : Bool := (s.length == 8) && s.all isLowerHexCP

/-- The exceptions this module can raise. -/
inductive PyExc where
  | addonsNotSupported
  | indexError
deriving DecidableEq, Repr

/-- `extract_hash_from_path` from `hassio/addons/utils.py` lines
95-101.  A `Path` appears through its tuple of parts; `parts[-1]` on an
empty tuple raises `IndexError`. -/
def extract_hash_from_path (parts : List PyStr) : Except PyExc PyStr :=
  match parts.getLast? with
  | none => Except.error PyExc.indexError
  | some repository_dir =>
    if !RE_SHA1_match repository_dir then
      Except.ok (get_hash_from_repository repository_dir)
    else
      Except.ok repository_dir

/-! ### Logging, the install-state guard and the data purge -/

/-- One log record emitted through `_LOGGER`. -/
structure LogEntry where
  severity : String
  message : String
deriving DecidableEq, Repr

/-- `check_installed` from `hassio/addons/utils.py` lines 104-114: the
decorator's inner `wrap_check`.  A wrapped coroutine is a function from
the addon and its remaining arguments to a result or a raised
exception; the wrapped call also yields the log records the guard
itself emitted. -/
def check_installed {α β : Type} (method : Addon → α → Except PyExc β)
    (addon : Addon) (args : α) : Except PyExc β × List LogEntry :=
  if !addon.is_installed then
    (Except.error PyExc.addonsNotSupported,
     [{ severity := "error"
        message := "Addon " ++ addon.slug ++ " is not installed" }])
  else
    (method addon args, [])

/-- Environment of one `remove_data` call: whether
`asyncio.create_subprocess_exec` raises `OSError` (and with which
message), and otherwise the exit code of the spawned `rm -rf` process
and the text that process writes on its standard error. -/
structure ProcBehavior where
  spawnError : Option String
  returncode : Int
  stderrText : String

/-- Python `"%s" % x` for an optional string: `None` renders as
`"None"`. -/
def pyFormatOpt : Option String → String
  | none => "None"
  | some s => s

/-- `remove_data` from `hassio/addons/utils.py` lines 117-131, as the
list of log records the call emits (the function itself returns
`None` on every path; only `OSError` is ever raised by the spawn and it
is caught).  `stdout` is sent to `DEVNULL` and `stderr` is not
redirected to a pipe, so `proc.communicate()` returns `(None, None)`
and `error_msg` is `None` on the nonzero-exit path; the process's
actual stderr text is inherited by the parent and never captured. -/
def remove_data (folder : String) (env : ProcBehavior) : List LogEntry :=
  match env.spawnError with
  | some err =>
      [{ severity := "error", message := "Can't remove Add-on Data: " ++ err }]
  | none =>
      let error_msg : Option String := none
      if env.returncode == 0 then []
      else
        [{ severity := "error"
           message := "Can't remove Add-on Data: " ++ pyFormatOpt error_msg }]

/-- A concrete failure environment: the delete process starts, writes a
diagnostic on stderr and exits with status 1. -/
def purgeFailEnv : ProcBehavior :=
  { spawnError := none, returncode := 1,
    stderrText := "rm: cannot remove /data/addons/data/a0d7b954: Permission denied" }

/-- A concrete spawn-failure environment: `create_subprocess_exec`
raises `OSError`. -/
def spawnFailEnv : ProcBehavior :=
  { spawnError := some "[Errno 2] No such file or directory: rm",
    returncode := 0, stderrText := "" }

/-! ## Theorems -/

/-! ### The security rating engine -/

theorem any_contains_comm (l₁ l₂ : List String) :
    l₁.any (fun p => l₂.contains p) = l₂.any (fun p => l₁.contains p) := by
  rw [Bool.eq_iff_iff]
  simp only [List.any_eq_true, List.elem_iff]
  tauto

theorem add_ite1 (p : Prop) [Decidable p] (x k : Int) :
    (if p then x + k else x) = x + (if p then k else 0) := by
  split_ifs <;> omega

theorem add_ite2 (p q : Prop) [Decidable p] [Decidable q] (x k1 k2 : Int) :
    (if p then x + k1 else if q then x + k2 else x) =
      x + (if p then k1 else if q then k2 else 0) := by
  split_ifs <;> omega

/-- The sequential `rating +=` blocks of `rating_security` compute the
additive total of spec §4.1 steps 1-8, the Docker-access override
replaces it by 1, and the result is clamped. -/
theorem rating_security_eq_spec (a : Addon) :
    rating_security a =
      spec_clamp (if a.access_docker_api then 1 else spec_additive_total a) := by
  simp only [rating_security, spec_clamp, spec_additive_total, DANGEROUS_PRIVILEGES]
  rw [any_contains_comm, add_ite2, add_ite2]
  simp only [add_ite1]

theorem spec_clamp_mono {x y : Int} (h : x ≤ y) : spec_clamp x ≤ spec_clamp y := by
  unfold spec_clamp; omega

/-- C1: for every descriptor with container-runtime API access
(`access_docker_api` true), `rating_security` returns exactly 1,
whatever the values of all other descriptor fields. -/
theorem claim_C1_runtime_api_override (a : Addon)
    (h : a.access_docker_api = true) : rating_security a = 1 := by
  rw [rating_security_eq_spec, h]
  simp [spec_clamp]

/-- C1 witness: the override at a concrete descriptor with every other
field at its safest setting. -/
theorem claim_C1_witness : rating_security safestButDockerAddon = 1 :=
  claim_C1_runtime_api_override safestButDockerAddon rfl

/-- C2: without container-runtime API access, `rating_security` is the
clamp to `[1, 6]` of the additive total (baseline 5; −1 isolation
disabled / +1 custom profile; +1 platform login; −1 once if the
requested privileges meet the six dangerous capabilities; −1 manager /
−2 admin; −1 host network; −2 host PID namespace; −2 full device
access); the baseline descriptor scores 5 and baseline plus host PID
namespace plus full device access scores 1. -/
theorem claim_C2_additive_formula :
    (∀ a : Addon, a.access_docker_api = false →
        rating_security a = spec_clamp (spec_additive_total a)) ∧
    rating_security baselineAddon = 5 ∧ rating_security pidFullAddon = 1 := by
  refine ⟨fun a h => ?_, by decide, by decide⟩
  rw [rating_security_eq_spec, h]
  simp

/-- C2 witness: the additive formula instantiated at a concrete
descriptor without Docker access. -/
theorem claim_C2_witness :
    rating_security managerAddon = spec_clamp (spec_additive_total managerAddon) :=
  claim_C2_additive_formula.1 managerAddon rfl

/-- C3: for every descriptor, `rating_security` returns an integer in
the closed range `[1, 6]`. -/
theorem claim_C3_range (a : Addon) :
    1 ≤ rating_security a ∧ rating_security a ≤ 6 := by
  rw [rating_security_eq_spec]; unfold spec_clamp; omega

/-- C3 witness: the range invariant at a concrete descriptor. -/
theorem claim_C3_witness :
    1 ≤ rating_security pidFullAddon ∧ rating_security pidFullAddon ≤ 6 :=
  claim_C3_range pidFullAddon

/-- C5 counterexample: a descriptor whose isolation profile and role
both lie outside their documented domains is processed normally —
`rating_security` returns 5, the same score as with the well-formed
defaults, instead of failing fast. -/
theorem claim_C5_counterexample :
    (bogusAddon.apparmor ≠ SECURITY_DISABLE ∧ bogusAddon.apparmor ≠ SECURITY_DEFAULT ∧
     bogusAddon.apparmor ≠ SECURITY_PROFILE) ∧
    (bogusAddon.hassio_role ≠ ROLE_DEFAULT ∧ bogusAddon.hassio_role ≠ ROLE_MANAGER ∧
     bogusAddon.hassio_role ≠ ROLE_ADMIN) ∧
    rating_security bogusAddon = 5 ∧
    rating_security bogusAddon = rating_security baselineAddon := by
  decide

/-- C5 amended: `rating_security` never fails on malformed enumerated
fields; every isolation-profile value other than the disable and
custom-profile constants, and every role value other than manager and
admin, is silently treated as a zero adjustment, i.e. exactly as the
default value. -/
theorem claim_C5_malformed_silent (a : Addon)
    (h1 : a.apparmor ≠ SECURITY_DISABLE) (h2 : a.apparmor ≠ SECURITY_PROFILE)
    (h3 : a.hassio_role ≠ ROLE_MANAGER) (h4 : a.hassio_role ≠ ROLE_ADMIN) :
    rating_security a =
      rating_security
        { a with apparmor := SECURITY_DEFAULT, hassio_role := ROLE_DEFAULT } := by
  rw [rating_security_eq_spec, rating_security_eq_spec]
  simp only [SECURITY_DISABLE, SECURITY_PROFILE, ROLE_MANAGER, ROLE_ADMIN] at h1 h2 h3 h4
  simp only [spec_additive_total]
  simp [h1, h2, h3, h4, SECURITY_DEFAULT, SECURITY_DISABLE, SECURITY_PROFILE,
        ROLE_DEFAULT, ROLE_MANAGER, ROLE_ADMIN]

/-- C5 amended witness: the silent-default behavior at the concrete
malformed descriptor. -/
theorem claim_C5_witness :
    rating_security bogusAddon =
      rating_security
        { bogusAddon with apparmor := SECURITY_DEFAULT, hassio_role := ROLE_DEFAULT } :=
  claim_C5_malformed_silent bogusAddon (by decide) (by decide) (by decide) (by decide)

/-- C10: flipping any one of the four risk flags (host network, host
PID namespace, full device access, container-runtime API access) from
false to true, all other fields fixed, never increases the score. -/
theorem claim_C10_flags_monotone (a : Addon) :
    (a.host_network = false →
       rating_security { a with host_network := true } ≤ rating_security a) ∧
    (a.host_pid = false →
       rating_security { a with host_pid := true } ≤ rating_security a) ∧
    (a.with_full_access = false →
       rating_security { a with with_full_access := true } ≤ rating_security a) ∧
    (a.access_docker_api = false →
       rating_security { a with access_docker_api := true } ≤ rating_security a) := by
  refine ⟨fun h => ?_, fun h => ?_, fun h => ?_, fun h => ?_⟩ <;>
    rw [rating_security_eq_spec, rating_security_eq_spec]
  · apply spec_clamp_mono
    simp only [spec_additive_total]
    simp [h]
    split_ifs <;> omega
  · apply spec_clamp_mono
    simp only [spec_additive_total]
    simp [h]
    split_ifs <;> omega
  · apply spec_clamp_mono
    simp only [spec_additive_total]
    simp [h]
    split_ifs <;> omega
  · simp only []
    simp
    unfold spec_clamp
    omega

/-- C10 witness: enabling the host PID namespace on the baseline does
not increase the score. -/
theorem claim_C10_witness :
    rating_security { baselineAddon with host_pid := true } ≤
      rating_security baselineAddon :=
  (claim_C10_flags_monotone baselineAddon).2.1 rfl

/-! ### The repository identity hasher -/

theorem isLowerHexCP_hexDigitCP (n : Nat) : isLowerHexCP (hexDigitCP n) = true := by
  unfold isLowerHexCP hexDigitCP
  have h : n % 16 < 16 := Nat.mod_lt _ (by omega)
  split_ifs <;> simp <;> omega

theorem hexdigest_length (l : List Nat) : (hexdigest l).length = 2 * l.length := by
  induction l with
  | nil => simp [hexdigest]
  | cons b t ih => simp [hexdigest] at ih ⊢; omega

theorem mem_hexdigest_isLowerHex (l : List Nat) :
    ∀ c ∈ hexdigest l, isLowerHexCP c = true := by
  induction l with
  | nil => simp [hexdigest]
  | cons b t ih =>
      intro c hc
      rw [show hexdigest (b :: t) =
            hexDigitCP (b / 16) :: hexDigitCP b :: hexdigest t from rfl] at hc
      rcases List.mem_cons.1 hc with h | hc2
      · exact h ▸ isLowerHexCP_hexDigitCP _
      rcases List.mem_cons.1 hc2 with h | h
      · exact h ▸ isLowerHexCP_hexDigitCP _
      · exact ih c h

theorem sha1_length (msg : List Nat) : (sha1 msg).length = 20 := by
  simp [sha1, wordBytes]

theorem get_hash_length (name : PyStr) : (get_hash_from_repository name).length = 8 := by
  unfold get_hash_from_repository
  simp [List.length_take, hexdigest_length, sha1_length]

theorem mem_get_hash_isLowerHex (name : PyStr) :
    ∀ c ∈ get_hash_from_repository name, isLowerHexCP c = true := by
  intro c hc
  unfold get_hash_from_repository at hc
  exact mem_hexdigest_isLowerHex _ c (List.take_subset _ _ hc)

theorem get_hash_isHex8 (name : PyStr) : isHex8 (get_hash_from_repository name) = true := by
  unfold isHex8
  simp only [Bool.and_eq_true, beq_iff_eq, List.all_eq_true]
  exact ⟨get_hash_length name, fun c hc => mem_get_hash_isLowerHex name c hc⟩

theorem isHex8_RE_match (s : PyStr) (h : isHex8 s = true) : RE_SHA1_match s = true := by
  unfold isHex8 at h
  unfold RE_SHA1_match
  simp only [Bool.and_eq_true, beq_iff_eq, List.all_eq_true, decide_eq_true_eq] at h ⊢
  obtain ⟨h1, h2⟩ := h
  exact ⟨by omega, fun c hc => h2 c (List.take_subset _ _ hc)⟩

theorem lowerCP_idem (c : Nat) : lowerCP (lowerCP c) = lowerCP c := by
  unfold lowerCP; split_ifs <;> omega

theorem pyLower_idem (s : PyStr) : pyLower (pyLower s) = pyLower s := by
  induction s with
  | nil => rfl
  | cons c t ih => simp only [pyLower, List.map_cons, List.map_map] at ih ⊢
                   rw [lowerCP_idem]
                   exact List.cons_eq_cons.2 ⟨rfl, ih⟩

/-- C8: `get_hash_from_repository` always returns exactly 8 characters,
all lowercase hex, and is case-insensitive: a name and its lower-cased
form hash identically. -/
theorem claim_C8_hash_shape (name : PyStr) :
    (get_hash_from_repository name).length = 8 ∧
    (∀ c ∈ get_hash_from_repository name, isLowerHexCP c = true) ∧
    get_hash_from_repository name = get_hash_from_repository (pyLower name) := by
  refine ⟨get_hash_length name, mem_get_hash_isLowerHex name, ?_⟩
  unfold get_hash_from_repository
  rw [pyLower_idem]

set_option maxRecDepth 10000 in
/-- C8 witness: hashing the concrete name Foo equals hashing foo. -/
theorem claim_C8_witness :
    pyLower (strCP "Foo") = strCP "foo" ∧
    get_hash_from_repository (strCP "Foo") = get_hash_from_repository (strCP "foo") := by
  refine ⟨by decide, ?_⟩
  have h := (claim_C8_hash_shape (strCP "Foo")).2.2
  rwa [show pyLower (strCP "Foo") = strCP "foo" from by decide] at h

set_option maxRecDepth 10000 in
theorem extract_hash_from_path_eq (parts : List PyStr) (seg : PyStr)
    (h : parts.getLast? = some seg) :
    extract_hash_from_path parts =
      if !RE_SHA1_match seg then Except.ok (get_hash_from_repository seg)
      else Except.ok seg := by
  unfold extract_hash_from_path
  rw [h]

/-- C4 counterexample: the final segment aaaaaaaaa has nine characters,
so it is not exactly 8 hex characters; the claim then requires it to be
hashed, yet `extract_hash_from_path` returns it unchanged (Python
`re.match` only anchors `[a-f0-9]{8}` at the start), and the returned
value is not an 8-character string. -/
theorem claim_C4_counterexample :
    extract_hash_from_path [strCP "aaaaaaaaa"] = Except.ok (strCP "aaaaaaaaa") ∧
    (strCP "aaaaaaaaa").length = 9 ∧
    (get_hash_from_repository (strCP "aaaaaaaaa")).length = 8 ∧
    strCP "aaaaaaaaa" ≠ get_hash_from_repository (strCP "aaaaaaaaa") := by
  refine ⟨rfl, rfl, get_hash_length _, ?_⟩
  intro h
  have := congrArg List.length h
  rw [get_hash_length] at this
  exact absurd this (by decide)

/-- C4 amended: `extract_hash_from_path` returns the final path segment
unchanged iff the segment has at least 8 characters and its first 8 lie
in `[a-f0-9]` (the pattern is anchored at the start only, not required
to span the segment); otherwise it returns the segment's hash, which is
an 8-character lowercase hex string.  The result is hence not an
8-character hex string for longer pass-through segments. -/
theorem claim_C4_amended (parts : List PyStr) (seg : PyStr)
    (h : parts.getLast? = some seg) :
    (extract_hash_from_path parts = Except.ok seg ↔ RE_SHA1_match seg = true) ∧
    (RE_SHA1_match seg = false →
       extract_hash_from_path parts = Except.ok (get_hash_from_repository seg) ∧
       isHex8 (get_hash_from_repository seg) = true) := by
  rw [extract_hash_from_path_eq parts seg h]
  by_cases hm : RE_SHA1_match seg = true
  · simp [hm]
  · have hm2 : RE_SHA1_match seg = false := by simpa using hm
    rw [hm2]
    refine ⟨?_, fun _ => ⟨rfl, get_hash_isHex8 seg⟩⟩
    show Except.ok (get_hash_from_repository seg) = Except.ok seg ↔ false = true
    constructor
    · intro hEq
      have hEq2 : get_hash_from_repository seg = seg := by injection hEq
      have h8 := get_hash_isHex8 seg
      rw [hEq2] at h8
      rw [isHex8_RE_match seg h8] at hm2
      exact Bool.noConfusion hm2
    · intro hFalse
      exact Bool.noConfusion hFalse

set_option maxRecDepth 10000 in
/-- C4 amended witness: a non-matching segment is hashed and the hash
is 8 lowercase hex characters. -/
theorem claim_C4_witness :
    extract_hash_from_path [strCP "zzz"] =
      Except.ok (get_hash_from_repository (strCP "zzz")) ∧
    isHex8 (get_hash_from_repository (strCP "zzz")) = true :=
  (claim_C4_amended [strCP "zzz"] (strCP "zzz") rfl).2 (by decide)

theorem extract_ok_RE_match (parts : List PyStr) (out : PyStr)
    (h : extract_hash_from_path parts = Except.ok out) : RE_SHA1_match out = true := by
  cases hp : parts.getLast? with
  | none =>
      unfold extract_hash_from_path at h
      rw [hp] at h
      exact Except.noConfusion h
  | some seg =>
      rw [extract_hash_from_path_eq parts seg hp] at h
      by_cases hm : RE_SHA1_match seg = true
      · rw [hm] at h
        have hEq : seg = out := by
          have h2 : Except.ok seg = (Except.ok out : Except PyExc PyStr) := h
          injection h2
        exact hEq ▸ hm
      · have hm2 : RE_SHA1_match seg = false := by simpa using hm
        rw [hm2] at h
        have hEq : get_hash_from_repository seg = out := by
          have h2 : Except.ok (get_hash_from_repository seg) =
              (Except.ok out : Except PyExc PyStr) := h
          injection h2
        have hr := isHex8_RE_match (get_hash_from_repository seg) (get_hash_isHex8 seg)
        rwa [hEq] at hr

/-- C9: `extract_hash_from_path` is idempotent — applied to its own
output, taken as a one-segment path, it returns that output unchanged. -/
theorem claim_C9_idempotent (parts : List PyStr) (out : PyStr)
    (h : extract_hash_from_path parts = Except.ok out) :
    extract_hash_from_path [out] = Except.ok out := by
  have hm := extract_ok_RE_match parts out h
  rw [extract_hash_from_path_eq [out] out rfl, hm]
  rfl

set_option maxRecDepth 10000 in
/-- C9 witness: re-applying the function to the hash it produced for
the concrete segment zzz returns that hash unchanged. -/
theorem claim_C9_witness :
    extract_hash_from_path [get_hash_from_repository (strCP "zzz")] =
      Except.ok (get_hash_from_repository (strCP "zzz")) :=
  claim_C9_idempotent [strCP "zzz"] (get_hash_from_repository (strCP "zzz")) rfl

/-! ### The install-state guard -/

/-- C7: a `check_installed`-wrapped operation called against a
descriptor with `is_installed` false never invokes the underlying
operation (the result is a constant, independent of `method`), logs one
error identifying the add-on by slug, and raises
`AddonsNotSupportedError`; with `is_installed` true it calls the
underlying operation on the same descriptor and arguments and returns
its result — value or raised error — unchanged, logging nothing. -/
theorem claim_C7_guard (α β : Type) (method : Addon → α → Except PyExc β)
    (addon : Addon) (args : α) :
    (addon.is_installed = false →
       check_installed method addon args =
         (Except.error PyExc.addonsNotSupported,
          [{ severity := "error"
             message := "Addon " ++ addon.slug ++ " is not installed" }])) ∧
    (addon.is_installed = true →
       check_installed method addon args = (method addon args, [])) := by
  unfold check_installed
  constructor
  · intro h; rw [h]; rfl
  · intro h; rw [h]; rfl

/-- C7 witness: the guard at a concrete uninstalled and a concrete
installed descriptor. -/
theorem claim_C7_witness :
    check_installed (fun _ _ => Except.ok 7)
        { baselineAddon with is_installed := false } 0 =
      (Except.error PyExc.addonsNotSupported,
       [{ severity := "error", message := "Addon baseline is not installed" }]) ∧
    check_installed (fun _ _ => Except.ok 7) baselineAddon 0 =
      (Except.ok 7, []) := by
  constructor
  · have h := (claim_C7_guard Nat Nat (fun _ _ => Except.ok 7)
      { baselineAddon with is_installed := false } 0).1 rfl
    rw [h]
    rfl
  · exact (claim_C7_guard Nat Nat (fun _ _ => Except.ok 7) baselineAddon 0).2 rfl

/-! ### The data purge -/

/-- C6: at a folder whose delete process exits nonzero after writing a
diagnostic to stderr, `remove_data` returns normally with exactly one
error-severity log entry, but the entry carries `None` rather than the
process's error output — stderr is never redirected to a pipe, so
`communicate()` returns `None` and the diagnostic is lost.  The
spawn-failure path does log the triggering error's message. -/
theorem claim_C6_stderr_lost :
    remove_data "/data/addons/data/a0d7b954" purgeFailEnv =
      [{ severity := "error", message := "Can't remove Add-on Data: None" }] ∧
    "Can't remove Add-on Data: None" ≠
      "Can't remove Add-on Data: " ++ purgeFailEnv.stderrText ∧
    remove_data "/data/addons/data/a0d7b954" spawnFailEnv =
      [{ severity := "error"
         message := "Can't remove Add-on Data: [Errno 2] No such file or directory: rm" }] :=
  ⟨rfl, by decide, rfl⟩

end Hassio
